import Mathlib

/-!
Verification development for the WhatsApp direct-URL uploader bot
(src/bot.js).

The file shallowly embeds the message handler, the command dispatcher and
the download / upload / group-management actions of src/bot.js.
JavaScript strings are modelled as Lean `String`; the JavaScript
`split(sep)` for a one-character separator is modelled by `splitCharP`
(it splits at every occurrence of the separator and keeps empty fields,
exactly as in JavaScript).  Side effects (replies, HTTP requests, file
creation and deletion, persistence of the allow-list) are recorded as an
explicit trace of `Effect`s, and the results of external calls (the HTTP
response, the stream write, the media send, the quoted-message media) are
inputs of the embedding.
-/

namespace Bot

/-- JavaScript `s.split(sep)` for a one-character separator, generalised to
a character predicate `p`: splits at every character satisfying `p`,
keeping empty fields, and yields `[[]]` on the empty string (JavaScript
yields `[""]`). -/
def splitCharP (p : Char → Bool) : List Char → List (List Char)
  | [] => [[]]
  | c :: cs =>
    let r := splitCharP p cs
    if p c then [] :: r else (c :: r.headD []) :: r.tail

/-- JavaScript `body.split(' ')` (src/bot.js lines 86 and 87). -/
def jsSplitSpace (body : String) : List (List Char) :=
  splitCharP (fun c => c == ' ') body.data

/-- `message.body.split(' ')[0].substring(1).toLowerCase()`
(src/bot.js line 86): the dispatched command name. -/
def parsedCommand (body : String) : String :=
  String.mk ((((jsSplitSpace body).headD []).drop 1).map Char.toLower)

/-- `message.body.split(' ').slice(1)` (src/bot.js line 87): the positional
arguments. -/
def parsedArgs (body : String) : List String :=
  ((jsSplitSpace body).tail).map String.mk

/-- `message.body.startsWith('!')` (src/bot.js line 85). -/
def startsWithBang (body : String) : Bool :=
  match body.data with
  | [] => false
  | c :: _ => c == '!'

/-- The hardcoded owner identity, src/bot.js line 43. -/
def OWNER_NUMBER : String := "+94760761047"

/-- The chat object returned by `message.getChat()`. -/
structure Chat where
  idSerialized : String
  isGroup : Bool
  name : String

/-- The inbound message object delivered to the handler. -/
structure Message where
  from_ : String
  body : String
  hasQuotedMsg : Bool

/-- The media object returned by `quotedMsg.downloadMedia()`. -/
structure Media where
  mimetype : String
  data : String

/-- The mutable bot state: the allow-list `Set` (represented as a
duplicate-free list in insertion order) and the readiness flag. -/
structure BotState where
  allowedGroups : List String
  isBotReady : Bool

/-- Observable side effects of handling one message. -/
inductive Effect where
  | reply (text : String)
  | sendMedia (to_ : String) (caption : String)
  | httpGet (url : String)
  | createFile (path : String)
  | deleteFile (path : String)
  | saveGroups (groups : List String)
  deriving DecidableEq

/-- `allowedGroups.add(x)` on the JavaScript `Set` (src/bot.js line 137). -/
def setAdd (l : List String) (x : String) : List String :=
  if x ∈ l then l else l ++ [x]

/-- `allowedGroups.delete(x)` on the JavaScript `Set` (src/bot.js
line 150): a set holds at most one copy of each element, so deletion
removes every occurrence from the representing list. -/
def setDelete (l : List String) (x : String) : List String :=
  l.filter (fun y => y != x)

/-- Result of the `axios` GET of src/bot.js lines 187-191: failure, or a
response carrying an optional content-disposition header. -/
inductive NetResult where
  | fail
  | ok (contentDisposition : Option String)

/-- Results of the external calls a download performs: the HTTP request,
the stream write (`finish` versus `error` on the writer), and the media
construction and send. -/
structure DownloadOutcome where
  net : NetResult
  writeOk : Bool
  sendOk : Bool

/-- Results of the external calls an upload performs, plus `Date.now()`. -/
structure UploadEnv where
  quotedHasMedia : Bool
  media : Option Media
  now : Nat

/-- The `process.env` configuration read at src/bot.js lines 11 and 275. -/
structure Config where
  portEnv : Option String
  baseUrlEnv : Option String

/-- All per-invocation external inputs of the handler. -/
structure Env where
  chatName : String → String
  dl : DownloadOutcome
  up : UploadEnv
  cfg : Config

/-- `const port = process.env.PORT || 3000` (src/bot.js line 11): an unset
or empty (falsy) variable falls back to 3000. -/
def portStr (cfg : Config) : String :=
  match cfg.portEnv with
  | none => "3000"
  | some p => if p = "" then "3000" else p

/-- `process.env.BASE_URL || http://localhost:port` (src/bot.js
line 275). -/
def baseUrl (cfg : Config) : String :=
  match cfg.baseUrlEnv with
  | none => "http://localhost:" ++ portStr cfg
  | some b => if b = "" then "http://localhost:" ++ portStr cfg else b

/-- The help text built by `showHelp` (src/bot.js lines 118-132). -/
def helpText (isOwner : Bool) : String :=
  let base := "*Bot Commands:*\n\n" ++
    "*!download <url>* - Download file from URL\n" ++
    "*!upload* - Reply to a file with this command to get a direct download link\n"
  if isOwner then
    base ++ "\n*Owner Commands:*\n\n" ++
      "*!addgroup* - Add current group to allowed list\n" ++
      "*!removegroup* - Remove current group from allowed list\n" ++
      "*!listgroups* - List all allowed groups\n" ++
      "*!status* - Show bot status\n"
  else base

/-- `showHelp` (src/bot.js lines 118-132). -/
def showHelp (isOwner : Bool) : List Effect :=
  [Effect.reply (helpText isOwner)]

/-- `addGroup` (src/bot.js lines 134-145): in a group chat, add the chat id
to the set, reply, and persist the set; otherwise reply with the
group-only message. -/
def addGroup (s : BotState) (chat : Chat) : List Effect × BotState :=
  if chat.isGroup then
    let groups := setAdd s.allowedGroups chat.idSerialized
    ([Effect.reply "This group has been added to the allowed list.",
      Effect.saveGroups groups],
     { s with allowedGroups := groups })
  else
    ([Effect.reply "This command can only be used in groups."], s)

/-- `removeGroup` (src/bot.js lines 147-158). -/
def removeGroup (s : BotState) (chat : Chat) : List Effect × BotState :=
  if chat.isGroup then
    let groups := setDelete s.allowedGroups chat.idSerialized
    ([Effect.reply "This group has been removed from the allowed list.",
      Effect.saveGroups groups],
     { s with allowedGroups := groups })
  else
    ([Effect.reply "This command can only be used in groups."], s)

/-- `listGroups` (src/bot.js lines 160-173); `chatName` stands for the
display-name lookup `client.getChatById(groupId).name`. -/
def listGroups (s : BotState) (chatName : String → String) : List Effect :=
  if s.allowedGroups.length = 0 then
    [Effect.reply "No groups are currently allowed."]
  else
    [Effect.reply ("*Allowed Groups:*\n\n" ++
      String.join (s.allowedGroups.map (fun gid => "- " ++ chatName gid ++ "\n")))]

/-- The characters following the first occurrence of `pat`, if `pat` occurs
(helper for the regex model below). -/
def afterFirst (pat : List Char) : List Char → Option (List Char)
  | [] => none
  | c :: cs =>
    if (c :: cs).take pat.length = pat then some ((c :: cs).drop pat.length)
    else afterFirst pat cs

/-- The JavaScript regex match `contentDisposition.match(/filename="?(.+)"?/)`
of src/bot.js line 197: the greedy capture takes everything after the first
`filename=`, skipping one leading double quote when more characters follow
it (the optional trailing quote of the pattern matches empty, so a closing
quote stays inside the capture); no occurrence, or nothing after it, is no
match. -/
def cdFilenameMatch (h : String) : Option String :=
  match afterFirst "filename=".data h.data with
  | none => none
  | some [] => none
  | some ('"' :: []) => some "\""
  | some ('"' :: c :: rest) => some (String.mk (c :: rest))
  | some rest => some (String.mk rest)

/-- The filename choice of src/bot.js lines 194-199: the last segment of
`url.split('/')`, overridden by a content-disposition filename when one is
present. -/
def dlFilename (url : String) (cd : Option String) : String :=
  let fromUrl := String.mk ((splitCharP (fun c => c == '/') url.data).getLastD [])
  match cd with
  | none => fromUrl
  | some h =>
    match cdFilenameMatch h with
    | none => fromUrl
    | some f => f

/-- `downloadFile` (src/bot.js lines 175-240).  With no argument it replies
with the usage message and does nothing else.  Otherwise it replies, issues
the GET, and on success opens the write stream on `temp/<filename>`
(creating the file); when the writer finishes it sends the attachment and
unconditionally deletes the temporary file (also after a send failure,
after the failure reply); when the writer errors it only replies with the
download-failure message.  A failure of the GET itself is reported with the
same download-failure reply before any file exists. -/
def downloadFile (m : Message) (args : List String) (dl : DownloadOutcome) :
    List Effect :=
  if args.length = 0 then
    [Effect.reply "Please provide a URL. Usage: !download <url>"]
  else
    let url := args.headD ""
    match dl.net with
    | NetResult.fail =>
        [Effect.reply "Downloading file...",
         Effect.httpGet url,
         Effect.reply "Failed to download the file. Please check the URL and try again."]
    | NetResult.ok cd =>
        let filename := dlFilename url cd
        let filePath := "temp/" ++ filename
        [Effect.reply "Downloading file...",
         Effect.httpGet url,
         Effect.createFile filePath] ++
        (if dl.writeOk then
           (if dl.sendOk then
              [Effect.sendMedia m.from_ ("Here\x27s your downloaded file: " ++ filename),
               Effect.deleteFile filePath]
            else
              [Effect.reply "Failed to send the file. It might be too large or in an unsupported format.",
               Effect.deleteFile filePath])
         else
           [Effect.reply "Failed to download the file. Please check the URL and try again."])

/-- `uploadFile` (src/bot.js lines 242-283). -/
def uploadFile (m : Message) (cfg : Config) (up : UploadEnv) : List Effect :=
  if !m.hasQuotedMsg then
    [Effect.reply "Please reply to a file with this command to upload it."]
  else if !up.quotedHasMedia then
    [Effect.reply "The quoted message does not contain a file."]
  else
    Effect.reply "Processing file..." ::
    (match up.media with
     | none => [Effect.reply "Failed to download the file."]
     | some media =>
        let extension :=
          ((splitCharP (fun c => c == '/') media.mimetype.data).map String.mk).getD 1 "undefined"
        let filename := "file-" ++ toString up.now ++ "." ++ extension
        let filePath := "uploads/" ++ filename
        let directLink := baseUrl cfg ++ "/uploads/" ++ filename
        [Effect.createFile filePath,
         Effect.reply ("File uploaded successfully!\nDirect download link: " ++ directLink)])

/-- The status text built by `showStatus` (src/bot.js lines 288-290). -/
def statusText (s : BotState) : String :=
  "*Bot Status:* " ++ (if s.isBotReady then "Online" else "Offline") ++ "\n\n" ++
  "*Allowed Groups:* " ++ toString s.allowedGroups.length ++ "\n"

/-- `showStatus` (src/bot.js lines 285-293): silently ignores non-owners. -/
def showStatus (s : BotState) (isOwner : Bool) : List Effect :=
  if !isOwner then [] else [Effect.reply (statusText s)]

/-- The `client.on('message')` handler (src/bot.js lines 71-115): returns
the trace of observable effects and the state after the message.  Status
broadcasts are dropped first; then the authorization gate (owner or
allow-listed chat); then the marker check and the command switch.  The
`getChat` and `getContact` calls are effect-free adapter reads (`chat` is
passed in, `contact` is unused in the source). -/
def handleMessage (s : BotState) (m : Message) (chat : Chat) (env : Env) :
    List Effect × BotState :=
  if m.from_ == "status@broadcast" then ([], s)
  else
    let isOwner := m.from_ == OWNER_NUMBER
    let isAllowedGroup := s.allowedGroups.contains chat.idSerialized
    if !isOwner && !isAllowedGroup then ([], s)
    else if startsWithBang m.body then
      match parsedCommand m.body with
      | "help" => (showHelp isOwner, s)
      | "addgroup" => if isOwner then addGroup s chat else ([], s)
      | "removegroup" => if isOwner then removeGroup s chat else ([], s)
      | "listgroups" => if isOwner then (listGroups s env.chatName, s) else ([], s)
      | "download" => (downloadFile m (parsedArgs m.body) env.dl, s)
      | "upload" => (uploadFile m env.cfg env.up, s)
      | "status" => (showStatus s isOwner, s)
      | _ => ([Effect.reply "Unknown command. Type !help for available commands."], s)
    else ([], s)

/-- The files present on disk after a trace, starting from an empty
directory: `createFile` adds a path, `deleteFile` removes it. -/
def filesAfter (tr : List Effect) : List String :=
  tr.foldl (fun acc e =>
    match e with
    | Effect.createFile p => setAdd acc p
    | Effect.deleteFile p => setDelete acc p
    | _ => acc) []

/-- Modelled from the words of the spec (section 4.2): the
whitespace-separated tokens of the body, for comparison with the parse the
code performs. -/
def specTokens (body : String) : List (List Char) :=
  (splitCharP Char.isWhitespace body.data).filter (fun t => !t.isEmpty)

/-- Modelled from the words of the spec: the command name is the lowercase
token up to the first whitespace following the marker. -/
def specCommand (body : String) : String :=
  String.mk ((((specTokens body).headD []).drop 1).map Char.toLower)

/-- Modelled from the words of the spec: the remaining whitespace-separated
tokens are the positional arguments. -/
def specArgs (body : String) : List String :=
  ((specTokens body).tail).map String.mk

/-- Tokens joined by single spaces: the bodies on which the parse the code
performs and the parse the spec describes are compared. -/
def joinSpace : List (List Char) → List Char
  | [] => []
  | [t] => t
  | t :: t' :: ts => t ++ ' ' :: joinSpace (t' :: ts)

/-! Helper lemmas. -/

theorem splitCharP_no_sep (p : Char → Bool) (l : List Char)
    (h : ∀ c ∈ l, p c = false) : splitCharP p l = [l] := by
  induction l with
  | nil => rfl
  | cons c cs ih =>
    have hc : p c = false := h c (List.mem_cons_self ..)
    have ih' := ih (fun x hx => h x (List.mem_cons_of_mem _ hx))
    simp [splitCharP, hc, ih']

theorem splitCharP_append_sep (p : Char → Bool) (a : List Char) (c : Char)
    (b : List Char) (ha : ∀ x ∈ a, p x = false) (hc : p c = true) :
    splitCharP p (a ++ c :: b) = a :: splitCharP p b := by
  induction a with
  | nil => simp [splitCharP, hc]
  | cons x xs ih =>
    have hx : p x = false := ha x (List.mem_cons_self ..)
    have ih' := ih (fun y hy => ha y (List.mem_cons_of_mem _ hy))
    simp [splitCharP, hx, ih']

theorem splitCharP_joinSpace (p : Char → Bool) (hs : p ' ' = true)
    (ts : List (List Char)) (hne : ts ≠ [])
    (h : ∀ t ∈ ts, ∀ c ∈ t, p c = false) :
    splitCharP p (joinSpace ts) = ts := by
  induction ts with
  | nil => exact absurd rfl hne
  | cons t ts ih =>
    cases ts with
    | nil =>
      simpa [joinSpace] using splitCharP_no_sep p t (h t (List.mem_cons_self ..))
    | cons t' ts' =>
      have h1 : ∀ x ∈ t, p x = false := h t (List.mem_cons_self ..)
      have h2 : ∀ u ∈ t' :: ts', ∀ c ∈ u, p c = false :=
        fun u hu => h u (List.mem_cons_of_mem _ hu)
      rw [joinSpace, splitCharP_append_sep p t ' ' _ h1 hs,
        ih (by simp) h2]

theorem not_mem_setDelete (l : List String) (x : String) :
    x ∉ setDelete l x := by
  simp [setDelete]

/-! Claim theorems. -/

/-- C7 (amended): the code splits the message body on single space
characters only, keeping empty fields.  For every marker-led body whose
tokens are separated by single spaces and contain no whitespace, the
dispatched command name is the lowercase first token with the marker
stripped, the positional arguments are exactly the remaining tokens in
order, and the parse the code performs agrees with the
whitespace-tokenization parse the spec describes. -/
theorem c7_parse_single_space (ts : List (List Char)) (hne : ts ≠ [])
    (htok : ∀ t ∈ ts, t ≠ [] ∧ ∀ c ∈ t, c.isWhitespace = false)
    (_hmark : (ts.headD []).headD ' ' = '!') :
    parsedCommand (String.mk (joinSpace ts)) = specCommand (String.mk (joinSpace ts)) ∧
    parsedArgs (String.mk (joinSpace ts)) = specArgs (String.mk (joinSpace ts)) ∧
    parsedCommand (String.mk (joinSpace ts)) =
      String.mk (((ts.headD []).drop 1).map Char.toLower) ∧
    parsedArgs (String.mk (joinSpace ts)) = ts.tail.map String.mk := by
  have hsp : ∀ t ∈ ts, ∀ c ∈ t, (c == ' ') = false := by
    intro t ht c hc
    have hw := (htok t ht).2 c hc
    rcases Bool.eq_false_or_eq_true (c == ' ') with h | h
    · exfalso
      have hce : c = ' ' := beq_iff_eq.mp h
      subst hce
      exact absurd hw (by decide)
    · exact h
  have h1 : splitCharP (fun c => c == ' ') (joinSpace ts) = ts :=
    splitCharP_joinSpace _ (by decide) ts hne hsp
  have h2 : splitCharP Char.isWhitespace (joinSpace ts) = ts :=
    splitCharP_joinSpace _ (by decide) ts hne (fun t ht => (htok t ht).2)
  have h3 : specTokens (String.mk (joinSpace ts)) = ts := by
    unfold specTokens
    rw [show (String.mk (joinSpace ts)).data = joinSpace ts from rfl, h2]
    exact List.filter_eq_self.mpr (fun t ht => by simpa using (htok t ht).1)
  have h4 : jsSplitSpace (String.mk (joinSpace ts)) = ts := by
    unfold jsSplitSpace
    rw [show (String.mk (joinSpace ts)).data = joinSpace ts from rfl, h1]
  refine ⟨?_, ?_, ?_, ?_⟩
  · unfold parsedCommand specCommand
    rw [h3, h4]
  · unfold parsedArgs specArgs
    rw [h3, h4]
  · unfold parsedCommand
    rw [h4]
  · unfold parsedArgs
    rw [h4]

/-- C7 fails as stated: on the body `!a  b` (two spaces) the code produces
the positional arguments `["", "b"]` while the whitespace-tokenization rule
stated by the claim produces `["b"]`. -/
theorem c7_counterexample :
    ¬ (parsedCommand "!a  b" = specCommand "!a  b" ∧
       parsedArgs "!a  b" = specArgs "!a  b") := by
  decide

theorem c7_witness :
    parsedCommand (String.mk (joinSpace [['!', 'd', 'l'], ['u']])) =
      specCommand (String.mk (joinSpace [['!', 'd', 'l'], ['u']])) ∧
    parsedArgs (String.mk (joinSpace [['!', 'd', 'l'], ['u']])) =
      specArgs (String.mk (joinSpace [['!', 'd', 'l'], ['u']])) ∧
    parsedCommand (String.mk (joinSpace [['!', 'd', 'l'], ['u']])) =
      String.mk ((([['!', 'd', 'l'], ['u']].headD []).drop 1).map Char.toLower) ∧
    parsedArgs (String.mk (joinSpace [['!', 'd', 'l'], ['u']])) =
      [['!', 'd', 'l'], ['u']].tail.map String.mk :=
  c7_parse_single_space [['!', 'd', 'l'], ['u']] (by decide) (by decide) (by decide)

/-- C2: evaluation of the three exit paths of a download of
`http://example.com/a.txt`.  After a successful attachment send and after a
send failure the temporary file `temp/a.txt` is deleted, but after a
stream write failure (the writer error path, src/bot.js lines 232-235) the
temporary file is left on disk: that handler only replies and never
removes the file, against the mandatory cleanup the claim states. -/
theorem c2_temp_cleanup_paths :
    filesAfter (downloadFile ⟨OWNER_NUMBER, "!download http://example.com/a.txt", false⟩
        ["http://example.com/a.txt"] ⟨NetResult.ok none, true, true⟩) = [] ∧
    filesAfter (downloadFile ⟨OWNER_NUMBER, "!download http://example.com/a.txt", false⟩
        ["http://example.com/a.txt"] ⟨NetResult.ok none, true, false⟩) = [] ∧
    filesAfter (downloadFile ⟨OWNER_NUMBER, "!download http://example.com/a.txt", false⟩
        ["http://example.com/a.txt"] ⟨NetResult.ok none, false, true⟩) = ["temp/a.txt"] := by
  decide

/-- C4: for every group identifier, an owner `!addgroup` in that group chat
followed by an owner `!removegroup` there leaves the identifier absent from
the in-memory allow-list, and the allowed-groups.json snapshot persisted by
the removal is exactly that final allow-list, hence also without the
identifier. -/
theorem c4_add_then_remove (s : BotState) (g nm : String) (env env' : Env) :
    g ∉ ((handleMessage ((handleMessage s ⟨OWNER_NUMBER, "!addgroup", false⟩
          ⟨g, true, nm⟩ env).2) ⟨OWNER_NUMBER, "!removegroup", false⟩
          ⟨g, true, nm⟩ env').2).allowedGroups ∧
    (handleMessage ((handleMessage s ⟨OWNER_NUMBER, "!addgroup", false⟩
          ⟨g, true, nm⟩ env).2) ⟨OWNER_NUMBER, "!removegroup", false⟩
          ⟨g, true, nm⟩ env').1 =
      [Effect.reply "This group has been removed from the allowed list.",
       Effect.saveGroups ((handleMessage ((handleMessage s
          ⟨OWNER_NUMBER, "!addgroup", false⟩ ⟨g, true, nm⟩ env).2)
          ⟨OWNER_NUMBER, "!removegroup", false⟩ ⟨g, true, nm⟩ env').2).allowedGroups] := by
  have hadd : parsedCommand "!addgroup" = "addgroup" := by decide
  have hrem : parsedCommand "!removegroup" = "removegroup" := by decide
  have hb : (OWNER_NUMBER == "status@broadcast") = false := by decide
  have ho : (OWNER_NUMBER == OWNER_NUMBER) = true := by decide
  have hb1 : startsWithBang "!addgroup" = true := by decide
  have hb2 : startsWithBang "!removegroup" = true := by decide
  unfold handleMessage
  simp [hadd, hrem, hb, ho, hb1, hb2, addGroup, removeGroup, not_mem_setDelete]

/-- C1: a sender that is neither the owner nor in an allow-listed chat
triggers nothing at all, whatever the message text: the handler returns an
empty effect trace and leaves the state unchanged.  Contrapositively, a
command action is performed only when the sender is the owner or the chat
identifier is in the allow-list. -/
theorem c1_non_authorized_silent (s : BotState) (m : Message) (chat : Chat)
    (env : Env) (h1 : m.from_ ≠ OWNER_NUMBER)
    (h2 : chat.idSerialized ∉ s.allowedGroups) :
    handleMessage s m chat env = ([], s) := by
  have ho : (m.from_ == OWNER_NUMBER) = false := beq_eq_false_iff_ne.mpr h1
  unfold handleMessage
  split
  · rfl
  · simp [ho, h2]

/-- C5: a message whose body does not start with the marker character `!`
triggers no command action and no reply: the handler returns an empty
effect trace and leaves the state unchanged. -/
theorem c5_no_marker_silent (s : BotState) (m : Message) (chat : Chat)
    (env : Env) (h : startsWithBang m.body = false) :
    handleMessage s m chat env = ([], s) := by
  unfold handleMessage
  split
  · rfl
  · simp [h]

/-- C10: a message whose sender field is `status@broadcast` is dropped at
the top of the handler: no authorization check result matters, no command
is dispatched and no reply is sent. -/
theorem c10_broadcast_dropped (s : BotState) (m : Message) (chat : Chat)
    (env : Env) (h : m.from_ = "status@broadcast") :
    handleMessage s m chat env = ([], s) := by
  simp [handleMessage, h]

/-- C3: an authorized `download` command whose parsed argument list is
empty replies with the provide-a-URL message and performs no other effect,
in particular no HTTP request and no file-system write. -/
theorem c3_download_no_url (s : BotState) (m : Message) (chat : Chat)
    (env : Env) (hnb : m.from_ ≠ "status@broadcast")
    (hauth : m.from_ = OWNER_NUMBER ∨ chat.idSerialized ∈ s.allowedGroups)
    (hbang : startsWithBang m.body = true)
    (hcmd : parsedCommand m.body = "download")
    (hargs : parsedArgs m.body = []) :
    handleMessage s m chat env =
      ([Effect.reply "Please provide a URL. Usage: !download <url>"], s) := by
  have hb : (m.from_ == "status@broadcast") = false := beq_eq_false_iff_ne.mpr hnb
  unfold handleMessage
  simp [hb, hbang, hcmd, hargs, downloadFile]
  exact fun hno => hauth.resolve_left hno

/-- C6: an authorized `upload` command that is not a reply to a quoted
message replies with the reply-to-a-file message and writes no file; and
when the quoted message carries no attachment it replies with the
no-file message and writes no file. -/
theorem c6_upload_preconditions (s : BotState) (m : Message) (chat : Chat)
    (env : Env) (hnb : m.from_ ≠ "status@broadcast")
    (hauth : m.from_ = OWNER_NUMBER ∨ chat.idSerialized ∈ s.allowedGroups)
    (hbang : startsWithBang m.body = true)
    (hcmd : parsedCommand m.body = "upload") :
    (m.hasQuotedMsg = false →
       handleMessage s m chat env =
         ([Effect.reply "Please reply to a file with this command to upload it."], s)) ∧
    (m.hasQuotedMsg = true → env.up.quotedHasMedia = false →
       handleMessage s m chat env =
         ([Effect.reply "The quoted message does not contain a file."], s)) := by
  have hb : (m.from_ == "status@broadcast") = false := beq_eq_false_iff_ne.mpr hnb
  constructor
  · intro hq
    unfold handleMessage
    simp [hb, hbang, hcmd, uploadFile, hq]
    exact fun hno => hauth.resolve_left hno
  · intro hq hm
    unfold handleMessage
    simp [hb, hbang, hcmd, uploadFile, hq, hm]
    exact fun hno => hauth.resolve_left hno

/-- C8: a `status` command from the owner is answered with exactly one
reply carrying the readiness state (Online or Offline) and the current
allow-list size, spelled out in the third conjunct; a `status` command from
any non-owner (also from an allow-listed group) produces no reply and no
other effect. -/
theorem c8_status_owner_only (s : BotState) (m : Message) (chat : Chat)
    (env : Env) (hbang : startsWithBang m.body = true)
    (hcmd : parsedCommand m.body = "status") :
    (m.from_ = OWNER_NUMBER →
       handleMessage s m chat env = ([Effect.reply (statusText s)], s)) ∧
    (m.from_ ≠ OWNER_NUMBER → handleMessage s m chat env = ([], s)) ∧
    statusText s = "*Bot Status:* " ++ (if s.isBotReady then "Online" else "Offline") ++
      "\n\n" ++ "*Allowed Groups:* " ++ toString s.allowedGroups.length ++ "\n" := by
  refine ⟨?_, ?_, rfl⟩
  · intro h
    have hb : (m.from_ == "status@broadcast") = false := by
      rw [h]; decide
    have ho : (m.from_ == OWNER_NUMBER) = true := by
      rw [h]; decide
    unfold handleMessage
    simp [hb, ho, hbang, hcmd, showStatus]
  · intro h
    have ho : (m.from_ == OWNER_NUMBER) = false := beq_eq_false_iff_ne.mpr h
    by_cases hbr : m.from_ = "status@broadcast"
    · simp [handleMessage, hbr]
    · have hb : (m.from_ == "status@broadcast") = false := beq_eq_false_iff_ne.mpr hbr
      by_cases hmem : chat.idSerialized ∈ s.allowedGroups
      · unfold handleMessage
        simp [hb, ho, hmem, hbang, hcmd, showStatus]
      · unfold handleMessage
        simp [hb, ho, hmem]

/-- C9: a successful `upload` (authorized, a reply to a quoted message
carrying media that the adapter returns) writes exactly one file whose
name is synthesized from the timestamp and the extension taken from the
MIME type, and replies with the link `baseUrl ++ /uploads/ ++ filename`;
the base URL falls back to `http://localhost:<port>` when BASE_URL is
unset, and the port falls back to 3000 when PORT is unset. -/
theorem c9_upload_link (s : BotState) (m : Message) (chat : Chat)
    (env : Env) (hnb : m.from_ ≠ "status@broadcast")
    (hauth : m.from_ = OWNER_NUMBER ∨ chat.idSerialized ∈ s.allowedGroups)
    (hbang : startsWithBang m.body = true)
    (hcmd : parsedCommand m.body = "upload")
    (hq : m.hasQuotedMsg = true) (hm : env.up.quotedHasMedia = true)
    (med : Media) (hmed : env.up.media = some med) :
    handleMessage s m chat env =
      ([Effect.reply "Processing file...",
        Effect.createFile ("uploads/" ++ ("file-" ++ toString env.up.now ++ "." ++
          ((splitCharP (fun c => c == '/') med.mimetype.data).map String.mk).getD 1 "undefined")),
        Effect.reply ("File uploaded successfully!\nDirect download link: " ++
          (baseUrl env.cfg ++ "/uploads/" ++ ("file-" ++ toString env.up.now ++ "." ++
            ((splitCharP (fun c => c == '/') med.mimetype.data).map String.mk).getD 1 "undefined")))],
       s) ∧
    (env.cfg.baseUrlEnv = none →
       baseUrl env.cfg = "http://localhost:" ++ portStr env.cfg) ∧
    (env.cfg.portEnv = none → portStr env.cfg = "3000") := by
  have hb : (m.from_ == "status@broadcast") = false := beq_eq_false_iff_ne.mpr hnb
  refine ⟨?_, ?_, ?_⟩
  · unfold handleMessage
    simp [hb, hbang, hcmd, uploadFile, hq, hm, hmed]
    exact fun hno => hauth.resolve_left hno
  · intro h
    simp [baseUrl, h]
  · intro h
    simp [portStr, h]

/-! Concrete environments used by the witnesses. -/

/-- An environment with no quoted media and every external call failing or
unused; the witnesses that never reach an external call use it. -/
def envNone : Env :=
  { chatName := fun _ => "Group"
    dl := { net := NetResult.fail, writeOk := true, sendOk := true }
    up := { quotedHasMedia := false, media := none, now := 0 }
    cfg := { portEnv := none, baseUrlEnv := none } }

/-- An environment whose quoted message carries a PNG attachment that the
adapter decodes, with `Date.now()` equal to 5 and no configuration set. -/
def envMedia : Env :=
  { chatName := fun _ => "Group"
    dl := { net := NetResult.fail, writeOk := true, sendOk := true }
    up := { quotedHasMedia := true
            media := some { mimetype := "image/png", data := "AAAA" }
            now := 5 }
    cfg := { portEnv := none, baseUrlEnv := none } }

theorem c1_witness :
    ("+111" : String) ≠ OWNER_NUMBER ∧ ("g2" : String) ∉ (["g1"] : List String) ∧
    handleMessage ⟨["g1"], true⟩ ⟨"+111", "!download http://x/y", false⟩
        ⟨"g2", false, "x"⟩ envNone = ([], ⟨["g1"], true⟩) :=
  ⟨by decide, by decide, c1_non_authorized_silent _ _ _ _ (by decide) (by decide)⟩

theorem c5_witness :
    handleMessage ⟨[], true⟩ ⟨OWNER_NUMBER, "download http://x", false⟩
        ⟨"c1", false, "x"⟩ envNone = ([], ⟨[], true⟩) :=
  c5_no_marker_silent _ _ _ _ (by decide)

theorem c10_witness :
    handleMessage ⟨[], true⟩ ⟨"status@broadcast", "!help", false⟩
        ⟨"c1", false, "x"⟩ envNone = ([], ⟨[], true⟩) :=
  c10_broadcast_dropped _ _ _ _ rfl

theorem c3_witness :
    handleMessage ⟨[], false⟩ ⟨OWNER_NUMBER, "!download", false⟩
        ⟨"c1", false, "x"⟩ envNone =
      ([Effect.reply "Please provide a URL. Usage: !download <url>"], ⟨[], false⟩) :=
  c3_download_no_url _ _ _ _ (by decide) (Or.inl rfl) (by decide) (by decide) (by decide)

theorem c6_witness :
    handleMessage ⟨[], true⟩ ⟨OWNER_NUMBER, "!upload", false⟩
        ⟨"c1", false, "x"⟩ envNone =
      ([Effect.reply "Please reply to a file with this command to upload it."], ⟨[], true⟩) ∧
    handleMessage ⟨[], true⟩ ⟨OWNER_NUMBER, "!upload", true⟩
        ⟨"c1", false, "x"⟩ envNone =
      ([Effect.reply "The quoted message does not contain a file."], ⟨[], true⟩) :=
  ⟨(c6_upload_preconditions _ _ _ _ (by decide) (Or.inl rfl) (by decide) (by decide)).1 rfl,
   (c6_upload_preconditions _ _ _ _ (by decide) (Or.inl rfl) (by decide) (by decide)).2 rfl rfl⟩

theorem c8_witness :
    handleMessage ⟨["g1"], true⟩ ⟨OWNER_NUMBER, "!status", false⟩
        ⟨"g1", true, "x"⟩ envNone =
      ([Effect.reply (statusText ⟨["g1"], true⟩)], ⟨["g1"], true⟩) ∧
    handleMessage ⟨["g1"], true⟩ ⟨"+222", "!status", false⟩
        ⟨"g1", true, "x"⟩ envNone = ([], ⟨["g1"], true⟩) :=
  ⟨(c8_status_owner_only ⟨["g1"], true⟩ ⟨OWNER_NUMBER, "!status", false⟩
      ⟨"g1", true, "x"⟩ envNone (by decide) (by decide)).1 rfl,
   (c8_status_owner_only ⟨["g1"], true⟩ ⟨"+222", "!status", false⟩
      ⟨"g1", true, "x"⟩ envNone (by decide) (by decide)).2.1 (by decide)⟩

theorem c9_witness :
    handleMessage ⟨[], true⟩ ⟨OWNER_NUMBER, "!upload", true⟩
        ⟨"c1", false, "x"⟩ envMedia =
      ([Effect.reply "Processing file...",
        Effect.createFile "uploads/file-5.png",
        Effect.reply "File uploaded successfully!\nDirect download link: http://localhost:3000/uploads/file-5.png"],
       ⟨[], true⟩) :=
  (c9_upload_link ⟨[], true⟩ ⟨OWNER_NUMBER, "!upload", true⟩ ⟨"c1", false, "x"⟩
    envMedia (by decide) (Or.inl rfl) (by decide) (by decide) rfl rfl
    ⟨"image/png", "AAAA"⟩ rfl).1

end Bot
